import Mathlib

/-!
Shallow embedding of the process-and-task lifecycle orchestrator of
`src/locust/main.py` (the `main`, `merge_locustfiles_content`, `shutdown`,
`sigint_handler`, `kill_workers`, `stop_and_optionally_quit` and
`start_automatic_run` logic), together with theorems settling the frozen
claims about it.

Side effects of the Python code (calls on the runner, printing, firing
events, `sys.exit`) are modelled as explicit action traces; machine state
read by a function becomes an explicit argument or a structure of fields.
-/

namespace Locust

/-- Observable side effects performed by the orchestration code, in program
order.  `sysExit c` models `sys.exit(c)`; the stats actions model the calls
into the external statistics module; runner actions model calls on the
load-generation engine. -/
inductive Action where
  | killInputListener
  | fireQuitting
  | killStatsPrinter
  | killHeadlessMaster
  | runnerStop
  | runnerQuit
  | webUiStop
  | sleep (seconds : Int)
  | printStatsJson
  | saveStatsJson (path : String)
  | printStats
  | printPercentileStats
  | printErrorReport
  | fireQuit (code : Int)
  | sysExit (code : Int)
  deriving DecidableEq, Repr

/-- State read by `shutdown()` (src/locust/main.py lines 620-659):
`environment.process_exit_code`, `len(runner.errors)`,
`len(runner.exceptions)`, `options.exit_code_on_error`,
`log.unhandled_greenlet_exception`, `options.json`, `options.json_file`
(`none` models a falsy/unset path), whether the runner is a
`WorkerRunner`, and which greenlets exist. -/
structure ShutdownEnv where
  process_exit_code : Option Int
  num_errors : Nat
  num_exceptions : Nat
  exit_code_on_error : Int
  unhandled_greenlet_exception : Bool
  json : Bool
  json_file : Option String
  is_worker : Bool
  has_input_listener : Bool
  has_stats_printer : Bool
  has_headless_master : Bool
  deriving DecidableEq, Repr

/-- The exit-code computation of `shutdown()` (src/locust/main.py lines
631-639):

`if environment.process_exit_code is not None: code = ...`
`elif len(runner.errors) or len(runner.exceptions): code = options.exit_code_on_error`
`elif log.unhandled_greenlet_exception: code = 2`
`else: code = 0` -/
def shutdown_exit_code (e : ShutdownEnv) : Int :=
  match e.process_exit_code with
  | some c => c
  | none =>
    if e.num_errors ≠ 0 ∨ e.num_exceptions ≠ 0 then e.exit_code_on_error
    else if e.unhandled_greenlet_exception then 2
    else 0

/-- The action trace of `shutdown()` (src/locust/main.py lines 620-659):
kill the input listener, fire `quitting`, compute the code, kill the stats
printer and headless-master greenlets, quit the runner, emit statistics
(note: `if options.json` is a separate statement from the
`if options.json_file ... elif not isinstance(runner, WorkerRunner)`
chain), fire `quit` and exit. -/
def shutdown (e : ShutdownEnv) : List Action :=
  (if e.has_input_listener then [Action.killInputListener] else [])
  ++ [Action.fireQuitting]
  ++ (if e.has_stats_printer then [Action.killStatsPrinter] else [])
  ++ (if e.has_headless_master then [Action.killHeadlessMaster] else [])
  ++ [Action.runnerQuit]
  ++ (if e.json then [Action.printStatsJson] else [])
  ++ (match e.json_file with
      | some p => [Action.saveStatsJson p]
      | none =>
        if e.is_worker then []
        else [Action.printStats, Action.printPercentileStats, Action.printErrorReport])
  ++ [Action.fireQuit (shutdown_exit_code e), Action.sysExit (shutdown_exit_code e)]

theorem getLast?_append_pair (xs : List Action) (a b : Action) :
    (xs ++ [a, b]).getLast? = some b := by
  induction xs with
  | nil => rfl
  | cons x xs ih =>
    cases xs with
    | nil => rfl
    | cons y ys => simpa using ih

/-- C1: the `shutdown()` entry point computes the final process exit code by
this exact precedence: an externally-set `environment.process_exit_code`
wins unconditionally; otherwise a non-zero count of accumulated request
errors or exceptions yields `options.exit_code_on_error`; otherwise a
recorded unhandled greenlet exception yields exactly 2; otherwise 0.  The
trace of `shutdown` ends by exiting with that code. -/
theorem shutdown_exit_code_precedence (e : ShutdownEnv) :
    (∀ c, e.process_exit_code = some c → shutdown_exit_code e = c) ∧
    (e.process_exit_code = none → 0 < e.num_errors + e.num_exceptions →
      shutdown_exit_code e = e.exit_code_on_error) ∧
    (e.process_exit_code = none → e.num_errors + e.num_exceptions = 0 →
      e.unhandled_greenlet_exception = true → shutdown_exit_code e = 2) ∧
    (e.process_exit_code = none → e.num_errors + e.num_exceptions = 0 →
      e.unhandled_greenlet_exception = false → shutdown_exit_code e = 0) ∧
    (shutdown e).getLast? = some (Action.sysExit (shutdown_exit_code e)) := by
  refine ⟨?_, ?_, ?_, ?_, ?_⟩
  · intro c hc
    simp [shutdown_exit_code, hc]
  · intro hn hpos
    have : e.num_errors ≠ 0 ∨ e.num_exceptions ≠ 0 := by omega
    simp [shutdown_exit_code, hn, this]
  · intro hn hz hu
    have h1 : e.num_errors = 0 := by omega
    have h2 : e.num_exceptions = 0 := by omega
    simp [shutdown_exit_code, hn, h1, h2, hu]
  · intro hn hz hu
    have h1 : e.num_errors = 0 := by omega
    have h2 : e.num_exceptions = 0 := by omega
    simp [shutdown_exit_code, hn, h1, h2, hu]
  · exact getLast?_append_pair _ _ _

/-- Witness for C1 at a concrete environment: with no explicit exit code,
3 errors, `exit_code_on_error = 7`, the computed code is 7. -/
theorem shutdown_exit_code_precedence_witness :
    shutdown_exit_code
      { process_exit_code := none, num_errors := 3, num_exceptions := 0,
        exit_code_on_error := 7, unhandled_greenlet_exception := false,
        json := false, json_file := none, is_worker := false,
        has_input_listener := true, has_stats_printer := false,
        has_headless_master := false } = 7 :=
  (shutdown_exit_code_precedence
    { process_exit_code := none, num_errors := 3, num_exceptions := 0,
      exit_code_on_error := 7, unhandled_greenlet_exception := false,
      json := false, json_file := none, is_worker := false,
      has_input_listener := true, has_stats_printer := false,
      has_headless_master := false }).2.1 rfl (by decide)

/-- The concrete environment refuting C8: `--json` requested on the
console, no JSON file path, and the runner is not a worker. -/
def c8_env : ShutdownEnv :=
  { process_exit_code := none, num_errors := 0, num_exceptions := 0,
    exit_code_on_error := 1, unhandled_greenlet_exception := false,
    json := true, json_file := none, is_worker := false,
    has_input_listener := true, has_stats_printer := false,
    has_headless_master := false }

/-- C8 counterexample: JSON output was requested (`json := true`), yet the
plain-text summary, percentile breakdown and error report are all printed
as well — console JSON and the plain-text summary are not mutually
exclusive, because `if options.json` is a separate statement from the
`if options.json_file ... elif not worker` chain. -/
theorem shutdown_json_not_exclusive :
    c8_env.json = true ∧
    Action.printStatsJson ∈ shutdown c8_env ∧
    Action.printStats ∈ shutdown c8_env ∧
    Action.printPercentileStats ∈ shutdown c8_env ∧
    Action.printErrorReport ∈ shutdown c8_env := by
  decide

/-- C8 amended: writing statistics JSON to a *file* is what is mutually
exclusive with the plain-text output: when a JSON file path was given,
none of the plain summary, percentile breakdown or error report is
printed; when no file path was given they are printed exactly when the
process is not a remote worker, regardless of whether console JSON was
requested; console JSON is printed exactly when `--json` was set. -/
theorem shutdown_stats_output_cases (e : ShutdownEnv) :
    (∀ p, e.json_file = some p →
      Action.saveStatsJson p ∈ shutdown e ∧
      Action.printStats ∉ shutdown e ∧
      Action.printPercentileStats ∉ shutdown e ∧
      Action.printErrorReport ∉ shutdown e) ∧
    (e.json_file = none →
      (Action.printStats ∈ shutdown e ↔ e.is_worker = false)) ∧
    (Action.printStatsJson ∈ shutdown e ↔ e.json = true) := by
  obtain ⟨pec, ne, nx, ecoe, ug, json, jf, iw, hil, hsp, hhm⟩ := e
  refine ⟨?_, ?_, ?_⟩
  · intro p hp
    cases jf with
    | none => cases hp
    | some q =>
      cases hp
      cases json <;> cases iw <;> cases hil <;> cases hsp <;> cases hhm <;>
        simp [shutdown, List.mem_append]
  · intro hn
    cases jf with
    | some q => cases hn
    | none =>
      cases json <;> cases iw <;> cases hil <;> cases hsp <;> cases hhm <;>
        simp [shutdown, List.mem_append]
  · cases jf <;> cases json <;> cases iw <;> cases hil <;> cases hsp <;> cases hhm <;>
      simp [shutdown, List.mem_append]

/-- Witness for C8's amended theorem: with a JSON file path given, the
plain summary is suppressed and the file save is emitted. -/
theorem shutdown_stats_output_cases_witness :
    Action.saveStatsJson "out.json" ∈
      shutdown
        { process_exit_code := none, num_errors := 0, num_exceptions := 0,
          exit_code_on_error := 1, unhandled_greenlet_exception := false,
          json := false, json_file := some "out.json", is_worker := false,
          has_input_listener := false, has_stats_printer := false,
          has_headless_master := false } ∧
    Action.printStats ∉
      shutdown
        { process_exit_code := none, num_errors := 0, num_exceptions := 0,
          exit_code_on_error := 1, unhandled_greenlet_exception := false,
          json := false, json_file := some "out.json", is_worker := false,
          has_input_listener := false, has_stats_printer := false,
          has_headless_master := false } := by
  have h := (shutdown_stats_output_cases
    { process_exit_code := none, num_errors := 0, num_exceptions := 0,
      exit_code_on_error := 1, unhandled_greenlet_exception := false,
      json := false, json_file := some "out.json", is_worker := false,
      has_input_listener := false, has_stats_printer := false,
      has_headless_master := false }).1 "out.json" rfl
  exact ⟨h.1, h.2.1⟩

/-- The parent's `sigint_handler` (src/locust/main.py lines 240-252).
Input: the `has_run` flag stored on the handler and the children as
`(pid, alive)` pairs (a `SIGKILL` to a dead pid raises
`ProcessLookupError`, which the code swallows).  Output: the new
`has_run` flag, the pids that actually received `SIGKILL`, and the
`sys.exit` code if any.  On a repeated signal the handler kills every
still-alive child and exits 1; on the first signal it only records the
flag (the assignment `sigint_handler.has_run = True` is after the `if`
block, unreached on the exit path). -/
def sigint_handler (has_run : Bool) (children : List (Nat × Bool)) :
    Bool × List Nat × Option Int :=
  if has_run then
    (has_run, (children.filter (fun c => c.2)).map Prod.fst, some 1)
  else
    (true, [], none)

/-- C2: the first interrupt signal in the coordinator kills no child and
does not exit, only recording that a signal was seen; a second signal
while the record is set sends `SIGKILL` to exactly the still-alive
children and exits with code 1. -/
theorem sigint_escalation (children : List (Nat × Bool)) :
    (sigint_handler false children).2.1 = [] ∧
    (sigint_handler false children).2.2 = none ∧
    (sigint_handler false children).1 = true ∧
    (∀ p, p ∈ (sigint_handler true children).2.1 ↔ (p, true) ∈ children) ∧
    (sigint_handler true children).2.2 = some 1 := by
  refine ⟨rfl, rfl, rfl, ?_, rfl⟩
  intro p
  simp only [sigint_handler, if_pos, List.mem_map, List.mem_filter]
  constructor
  · rintro ⟨⟨q, b⟩, ⟨hmem, hb⟩, rfl⟩
    simp only at hb
    rw [show b = true from hb] at hmem
    exact hmem
  · intro hmem
    exact ⟨(p, true), ⟨hmem, rfl⟩, rfl⟩

/-- Witness for C2 at a concrete child list: with children 10 (alive),
11 (dead), 12 (alive), the second signal kills 10 and 12 and exits 1. -/
theorem sigint_escalation_witness :
    (10 ∈ (sigint_handler true [(10, true), (11, false), (12, true)]).2.1) ∧
    (sigint_handler true [(10, true), (11, false), (12, true)]).2.2 = some 1 :=
  ⟨((sigint_escalation [(10, true), (11, false), (12, true)]).2.2.2.1 10).mpr
      (by decide),
   (sigint_escalation [(10, true), (11, false), (12, true)]).2.2.2.2⟩

/-- The reaping loop of the worker-mode parent (src/locust/main.py lines
255-261): `exit_code = 0`, then for each child
`exit_code = max(exit_code, os.waitstatus_to_exitcode(status))`, and
finally `sys.exit(exit_code)`.  `childCodes` is the list of
`waitstatus_to_exitcode` results in reaping order (negative for a child
killed by a signal). -/
def wait_for_children_exit_code (childCodes : List Int) : Int :=
  childCodes.foldl (fun acc c => max acc c) 0

/-- The aggregate computed by `kill_workers` (src/locust/main.py lines
266-298): `exit_code = 0`, a first phase reaps children that exit within
the grace period, a `SIGINT` is sent to the rest, and a final blocking
loop reaps them; every reaped code is folded in with `max`. -/
def kill_workers_exit_code (reapedEarly reapedLate : List Int) : Int :=
  (reapedEarly ++ reapedLate).foldl (fun acc c => max acc c) 0

/-- The exit status of the master-mode parent (no `--worker`):
`kill_workers` is only registered with `atexit` (line 300) and never calls
`sys.exit` — it logs `Bad response code from worker children` when its
aggregate exceeds 1 (lines 294-295) — so the process exits with whatever
code `shutdown()` passed to `sys.exit` (line 659), unaffected by the
reaped child codes. -/
def master_final_exit_code (shutdown_code : Int) (_childCodes : List Int) : Int :=
  shutdown_code

theorem init_le_foldl_max (init : Int) (codes : List Int) :
    init ≤ codes.foldl (fun acc c => max acc c) init := by
  induction codes generalizing init with
  | nil => exact le_refl _
  | cons a l ih =>
    calc init ≤ max init a := le_max_left _ _
    _ ≤ l.foldl (fun acc c => max acc c) (max init a) := ih _

theorem mem_le_foldl_max (codes : List Int) (c : Int) :
    ∀ init : Int, c ∈ codes → c ≤ codes.foldl (fun acc x => max acc x) init := by
  induction codes with
  | nil =>
    intro init hc
    cases hc
  | cons a l ih =>
    intro init hc
    rcases List.mem_cons.mp hc with rfl | hmem
    · calc c ≤ max init c := le_max_right _ _
      _ ≤ l.foldl (fun acc x => max acc x) (max init c) := init_le_foldl_max _ _
    · exact ih (max init a) hmem

theorem foldl_max_eq_init_or_mem (init : Int) (codes : List Int) :
    codes.foldl (fun acc c => max acc c) init = init ∨
    codes.foldl (fun acc c => max acc c) init ∈ codes := by
  induction codes generalizing init with
  | nil => exact Or.inl rfl
  | cons a l ih =>
    rcases ih (max init a) with h | h
    · rcases max_choice init a with hm | hm
      · exact Or.inl (by rw [List.foldl_cons, h, hm])
      · exact Or.inr (by rw [List.foldl_cons, h, hm]; exact List.mem_cons_self _ _)
    · exact Or.inr (List.mem_cons_of_mem _ h)

/-- C3 counterexample: (a) in the master path the parent does not exit with
the children's maximum: with a shutdown code of 0 and one child exiting 3,
the process exit code is 0, not `max 0 3 = 3` — `kill_workers` only logs
its aggregate; (b) the clause "any single non-zero child exit code makes
the aggregate non-zero" fails for a signal-killed child:
`waitstatus_to_exitcode` yields `-9` for a `SIGKILL`ed child, which is
non-zero, yet the aggregate is `max 0 (-9) = 0`. -/
theorem aggregate_exit_code_counterexample :
    (master_final_exit_code 0 [3] = 0 ∧
     wait_for_children_exit_code [3] = 3 ∧
     master_final_exit_code 0 [3] ≠ wait_for_children_exit_code [3]) ∧
    (wait_for_children_exit_code [-9] = 0 ∧ (-9 : Int) ≠ 0) := by
  refine ⟨⟨rfl, ?_, ?_⟩, ⟨?_, ?_⟩⟩ <;> decide

/-- C3 amended: in the worker-mode parent's reaping loop the exit code the
parent exits with is exactly the maximum of 0 (the parent's own initial
code) and all reaped child codes — it is non-negative, bounds every child
code, and is attained by 0 or by some child code — so any *positive*
child exit code makes it positive (a negative signal-death code is masked
by the initial 0).  `kill_workers` computes the same maximum over its two
reaping phases, but in the master path it is only logged: the master's
process exit code is the one `shutdown()` computed. -/
theorem aggregate_exit_code_is_max (codes : List Int) :
    0 ≤ wait_for_children_exit_code codes ∧
    (∀ c ∈ codes, c ≤ wait_for_children_exit_code codes) ∧
    (wait_for_children_exit_code codes = 0 ∨
      wait_for_children_exit_code codes ∈ codes) ∧
    (∀ c ∈ codes, 0 < c → 0 < wait_for_children_exit_code codes) ∧
    (∀ early late : List Int,
      kill_workers_exit_code early late =
        wait_for_children_exit_code (early ++ late)) ∧
    (∀ s : Int, master_final_exit_code s codes = s) := by
  refine ⟨init_le_foldl_max 0 codes, ?_, foldl_max_eq_init_or_mem 0 codes, ?_, ?_, ?_⟩
  · intro c hc
    exact mem_le_foldl_max codes c 0 hc
  · intro c hc hpos
    exact lt_of_lt_of_le hpos (mem_le_foldl_max codes c 0 hc)
  · intro early late
    rfl
  · intro s
    rfl

/-- Witness for C3's amended theorem: with reaped codes `[0, 3]` the
parent exits with a positive code. -/
theorem aggregate_exit_code_is_max_witness :
    0 < wait_for_children_exit_code [0, 3] :=
  (aggregate_exit_code_is_max [0, 3]).2.2.2.1 3 (by decide) (by decide)

/-- The forking loop (src/locust/main.py lines 223-235):
`for _ in range(options.processes): if child_pid := gevent.fork():
children.append(child_pid) else: options.worker = True; ...; break`.
`forkResults` lists the successive `gevent.fork()` return values seen by
one process, one per executed iteration; a non-zero value is a child pid
appended to `children`, a zero value means this process is the child,
which sets worker mode and breaks.  Returns the accumulated `children`
list and whether this process became a worker child. -/
def fork_loop (forkResults : List Nat) : List Nat × Bool :=
  match forkResults with
  | [] => ([], false)
  | r :: rest =>
    if r ≠ 0 then
      let p := fork_loop rest
      (r :: p.1, p.2)
    else
      ([], true)

theorem fork_loop_all_nonzero (rs : List Nat) (hnz : ∀ r ∈ rs, r ≠ 0) :
    fork_loop rs = (rs, false) := by
  induction rs with
  | nil => rfl
  | cons r rest ih =>
    have hr : r ≠ 0 := hnz r (List.mem_cons_self _ _)
    have hrest : ∀ x ∈ rest, x ≠ 0 := fun x hx => hnz x (List.mem_cons_of_mem _ hx)
    simp [fork_loop, hr, ih hrest]

/-- C4: in the parent process — where every `gevent.fork()` call returns a
non-zero child pid — the loop over `range(options.processes)` runs all
`N > 0` iterations, creating one child per iteration, so the parent's
`children` list has length exactly `N` and the parent does not become a
worker child. -/
theorem fork_loop_creates_n_children (n : Nat) (_hn : 0 < n)
    (forkResults : List Nat) (hlen : forkResults.length = n)
    (hnz : ∀ r ∈ forkResults, r ≠ 0) :
    (fork_loop forkResults).1.length = n ∧
    (fork_loop forkResults).2 = false := by
  rw [fork_loop_all_nonzero forkResults hnz]
  exact ⟨hlen, rfl⟩

/-- Witness for C4 with `N = 3` and child pids 101, 102, 103. -/
theorem fork_loop_creates_n_children_witness :
    (fork_loop [101, 102, 103]).1.length = 3 ∧
    (fork_loop [101, 102, 103]).2 = false :=
  fork_loop_creates_n_children 3 (by decide) [101, 102, 103] (by decide)
    (by decide)

/-- `stop_and_optionally_quit` (src/locust/main.py lines 506-521), the body
of the run-time-limit greenlet: in autostart non-headless mode, stop the
runner; then, if `options.autoquit != -1`, sleep the autoquit delay, quit
the runner and stop the web UI (when one exists); with no autoquit the
function returns leaving everything running.  In the headless (or
non-autostart) branch the runner is quit immediately. -/
def stop_and_optionally_quit (autostart headless : Bool) (autoquit : Int)
    (has_web_ui : Bool) : List Action :=
  if autostart && !headless then
    Action.runnerStop ::
      (if autoquit ≠ -1 then
        [Action.sleep autoquit, Action.runnerQuit]
          ++ (if has_web_ui then [Action.webUiStop] else [])
      else [])
  else
    [Action.runnerQuit]

/-- C6: when the run-time limit fires with autostart active and headless
inactive, the graceful stop always comes first; with an autoquit delay
configured the quit and web-console stop follow the sleep of that delay
(so quit never precedes stop); with no autoquit delay neither quit nor
web-console stop nor any exit is ever emitted on this path; with headless
active the runner is quit immediately with no sleep. -/
theorem stop_and_optionally_quit_cases (autoquit : Int) (has_web_ui : Bool) :
    ((stop_and_optionally_quit true false autoquit has_web_ui).head? =
      some Action.runnerStop) ∧
    (autoquit ≠ -1 →
      stop_and_optionally_quit true false autoquit has_web_ui =
        [Action.runnerStop, Action.sleep autoquit, Action.runnerQuit]
          ++ (if has_web_ui then [Action.webUiStop] else [])) ∧
    (autoquit = -1 →
      Action.runnerQuit ∉ stop_and_optionally_quit true false autoquit has_web_ui ∧
      Action.webUiStop ∉ stop_and_optionally_quit true false autoquit has_web_ui ∧
      ∀ c, Action.sysExit c ∉ stop_and_optionally_quit true false autoquit has_web_ui) ∧
    (∀ autostart : Bool,
      stop_and_optionally_quit autostart true autoquit has_web_ui =
        [Action.runnerQuit]) := by
  refine ⟨?_, ?_, ?_, ?_⟩
  · by_cases h : autoquit = -1 <;> simp [stop_and_optionally_quit, h]
  · intro h
    simp [stop_and_optionally_quit, h]
  · intro h
    refine ⟨?_, ?_, ?_⟩ <;> simp [stop_and_optionally_quit, h]
  · intro autostart
    cases autostart <;> simp [stop_and_optionally_quit]

/-- Witness for C6 with autoquit delay 10 and a web UI: the full
stop-sleep-quit-webstop sequence, and the headless immediate quit. -/
theorem stop_and_optionally_quit_cases_witness :
    stop_and_optionally_quit true false 10 true =
      [Action.runnerStop, Action.sleep 10, Action.runnerQuit, Action.webUiStop] ∧
    stop_and_optionally_quit true true 10 true = [Action.runnerQuit] :=
  ⟨(stop_and_optionally_quit_cases 10 true).2.1 (by decide),
   (stop_and_optionally_quit_cases 10 true).2.2.2 true⟩

/-- Outcome of the worker-readiness wait loop: the loop exits normally
once enough workers are ready, or aborts with the recorded action trace. -/
inductive WaitOutcome where
  | ready (elapsed : Nat)
  | aborted (trace : List Action)
  deriving DecidableEq, Repr

/-- The worker-readiness wait loop of `start_automatic_run`
(src/locust/main.py lines 538-559):
`while len(runner.clients.ready) < options.expect_workers:` — inside the
body, `if options.expect_workers_max_wait and
options.expect_workers_max_wait < time.monotonic() - start_time:` logs,
calls `runner.quit()` and `sys.exit(1)`; otherwise it logs progress and
sleeps one second.  Time is discretised: `t` is the elapsed seconds at
the start of an iteration (one per one-second sleep), `readyAt t` is
`len(runner.clients.ready)` then, `maxWait = 0` models a falsy/unset
`expect_workers_max_wait`, and `fuel` bounds the modelled iterations
(`none` = fuel exhausted, a model artifact only). -/
def wait_for_workers (expect maxWait : Nat) (readyAt : Nat → Nat) :
    Nat → Nat → Option WaitOutcome
  | 0, _ => none
  | fuel + 1, t =>
    if expect ≤ readyAt t then some (WaitOutcome.ready t)
    else if maxWait ≠ 0 ∧ maxWait < t then
      some (WaitOutcome.aborted [Action.runnerQuit, Action.sysExit 1])
    else
      wait_for_workers expect maxWait readyAt fuel (t + 1)

theorem wait_for_workers_aborts (expect maxWait : Nat) (readyAt : Nat → Nat)
    (hm : maxWait ≠ 0) (hready : ∀ s, readyAt s < expect) :
    ∀ fuel t, maxWait + 2 ≤ fuel + t → t ≤ maxWait + 1 →
      wait_for_workers expect maxWait readyAt fuel t =
        some (WaitOutcome.aborted [Action.runnerQuit, Action.sysExit 1]) := by
  intro fuel
  induction fuel with
  | zero =>
    intro t h1 h2
    exfalso
    omega
  | succ fuel ih =>
    intro t h1 h2
    have hnr : ¬ expect ≤ readyAt t := not_le.mpr (hready t)
    by_cases ht : maxWait < t
    · have hcond : maxWait ≠ 0 ∧ maxWait < t := ⟨hm, ht⟩
      simp [wait_for_workers, hnr, hcond]
    · have hcond : ¬ (maxWait ≠ 0 ∧ maxWait < t) := fun hc => ht hc.2
      simp only [wait_for_workers, if_neg hnr, if_neg hcond]
      exact ih (t + 1) (by omega) (by omega)

/-- C5 counterexample: with `expect_workers = 3`,
`expect_workers_max_wait = 5` and only 2 workers ever ready, the loop
aborts — but the abort trace is `runner.quit()` followed by
`sys.exit(1)`: the engine receives a *quit* (full termination) request
and never a graceful *stop* request, contrary to the claim that "the
load-generation engine receives a stop request" (the engine interface
distinguishes `stop()` from `quit()`, cf. lines 509 vs 514 and 542). -/
theorem worker_wait_no_stop_request :
    wait_for_workers 3 5 (fun _ => 2) 100 0 =
      some (WaitOutcome.aborted [Action.runnerQuit, Action.sysExit 1]) ∧
    Action.runnerStop ∉ [Action.runnerQuit, Action.sysExit 1] := by
  refine ⟨?_, by decide⟩
  decide

/-- C5 amended: if a maximum wait for remote workers is configured
(non-zero) and it elapses while the ready count is still below the
expected worker count, the run controller aborts: it requests the
engine's *quit* (full termination, not a separate graceful stop) and then
exits the process with code 1, the quit preceding the exit. -/
theorem worker_wait_timeout_aborts (expect maxWait : Nat)
    (readyAt : Nat → Nat) (fuel : Nat) (hm : maxWait ≠ 0)
    (hready : ∀ s, readyAt s < expect) (hfuel : maxWait + 2 ≤ fuel) :
    wait_for_workers expect maxWait readyAt fuel 0 =
      some (WaitOutcome.aborted [Action.runnerQuit, Action.sysExit 1]) :=
  wait_for_workers_aborts expect maxWait readyAt hm hready fuel 0 (by omega)
    (by omega)

/-- Witness for C5's amended theorem at the spec's concrete scenario:
3 expected workers, a 5 second ceiling, 2 workers ever ready. -/
theorem worker_wait_timeout_aborts_witness :
    wait_for_workers 3 5 (fun _ => 2) 50 0 =
      some (WaitOutcome.aborted [Action.runnerQuit, Action.sysExit 1]) := by
  exact worker_wait_timeout_aborts 3 5 (fun _ => 2) 50 (by decide)
    (by intro s; norm_num) (by decide)

/-- The configuration flags of `main()` consumed by the validation checks
(src/locust/main.py): `autoquit = -1` models the unset default,
`processes = 0` models no process splitting, `run_time = none` models no
run-time limit. -/
structure Options where
  headless : Bool
  autostart : Bool
  autoquit : Int
  processes : Int
  master : Bool
  worker : Bool
  expect_workers : Int
  run_time : Option Nat
  deriving DecidableEq, Repr

/-- The early flag validation of `main()` (src/locust/main.py lines
189-218), returning `some c` when the code calls `sys.exit(c)` there:
`--autoquit` without `--autostart` exits 1 (lines 189-191); under
`if options.processes:` (truthy, i.e. non-zero): Windows exits 1 (lines
203-205), `-1` autodetects via `os.cpu_count()` and exits 1 when that is
falsy (lines 206-210, `cpu_count = 0` models `None` or `0`), a value
below `-1` exits 1 (lines 211-213), and combining with `--master` exits 1
(lines 214-218).  These checks all run before any fork and before any
greenlet is spawned. -/
def early_config_validation (o : Options) (os_is_windows : Bool)
    (cpu_count : Nat) : Option Int :=
  if o.autoquit ≠ -1 ∧ ¬ o.autostart then some 1
  else if o.processes ≠ 0 then
    if os_is_windows then some 1
    else if o.processes = -1 then
      if cpu_count = 0 then some 1 else none
    else if o.processes < -1 then some 1
    else if o.master then some 1
    else none
  else none

/-- The master-mode flag validation (src/locust/main.py lines 405-411):
`--master` combined with `--worker` exits via `sys.exit(-1)`, and so does
`--expect-workers` below 1. -/
def master_worker_validation (o : Options) : Option Int :=
  if o.master then
    if o.worker then some (-1)
    else if o.expect_workers < 1 then some (-1)
    else none
  else none

/-- The run-time handling of `main()` (src/locust/main.py lines 431-433):
`if options.run_time: if options.worker: logger.info(...)` — it only logs
an informational message for a worker and never exits, so no value of
`run_time` is ever rejected. -/
def run_time_check (_o : Options) : Option Int :=
  none

/-- The flag-validation checks of `main()` composed in program order
(the exits of `main()` omitted here — `--list-commands`, a missing or
unknown User class, `--config-users` errors, a malformed
`--web-base-path` — read neither `run_time`, `autostart`, `autoquit`,
`master`, `worker`, `expect_workers` nor `processes`). -/
def config_validation (o : Options) (os_is_windows : Bool)
    (cpu_count : Nat) : Option Int :=
  match early_config_validation o os_is_windows cpu_count with
  | some c => some c
  | none =>
    match master_worker_validation o with
    | some c => some c
    | none => run_time_check o

/-- C7 counterexample: a configuration with a run-time limit of 600
seconds and autostart inactive (non-headless, no processes, no master)
passes every validation check — a run-time limit without autostart is
*not* rejected at configuration validation (it is silently never armed,
since `start_automatic_run` only runs under `--headless` or
`--autostart`, lines 589-590 and 678-679); what lines 189-191 reject
without autostart is `--autoquit`. -/
theorem run_time_without_autostart_accepted :
    config_validation
      { headless := false, autostart := false, autoquit := -1,
        processes := 0, master := false, worker := false,
        expect_workers := 1, run_time := some 600 } false 8 = none := by
  decide

/-- C7 amended: what configuration validation rejects (exit code 1,
before any fork or greenlet spawn) when autostart is inactive is a
configured *autoquit delay*, not a run-time limit: `autoquit ≠ -1`
without autostart always fails the earliest validation check with code 1,
while a run-time limit without autostart passes `run_time_check`
unrejected. -/
theorem autoquit_without_autostart_rejected (o : Options)
    (os_is_windows : Bool) (cpu_count : Nat) (h1 : o.autoquit ≠ -1)
    (h2 : o.autostart = false) :
    early_config_validation o os_is_windows cpu_count = some 1 ∧
    config_validation o os_is_windows cpu_count = some 1 ∧
    run_time_check o = none := by
  have hc : o.autoquit ≠ -1 ∧ ¬ o.autostart := ⟨h1, by simp [h2]⟩
  refine ⟨?_, ?_, rfl⟩
  · simp [early_config_validation, hc]
  · simp [config_validation, early_config_validation, hc]

/-- Witness for C7's amended theorem: `--autoquit 5` without
`--autostart` is rejected with exit code 1. -/
theorem autoquit_without_autostart_rejected_witness :
    config_validation
      { headless := false, autostart := false, autoquit := 5,
        processes := 0, master := false, worker := false,
        expect_workers := 1, run_time := none } false 8 = some 1 :=
  (autoquit_without_autostart_rejected
    { headless := false, autostart := false, autoquit := 5,
      processes := 0, master := false, worker := false,
      expect_workers := 1, run_time := none } false 8 (by decide) rfl).2.1

/-- C9 counterexample: combining `--master` with `--worker` is rejected
via `sys.exit(-1)` (src/locust/main.py line 408), not with exit code 1;
likewise a non-positive `--expect-workers` (line 411).  So not every
invalid flag combination detected before process/task creation exits
with code 1. -/
theorem master_worker_exit_not_one :
    master_worker_validation
      { headless := true, autostart := false, autoquit := -1,
        processes := 0, master := true, worker := true,
        expect_workers := 1, run_time := none } = some (-1) ∧
    master_worker_validation
      { headless := true, autostart := false, autoquit := -1,
        processes := 0, master := true, worker := false,
        expect_workers := 0, run_time := none } = some (-1) ∧
    ((-1 : Int) = 1 → False) := by
  refine ⟨by decide, by decide, by decide⟩

/-- C9 amended: every invalid flag combination detected before any
process or task is created exits immediately with a *non-zero* code, but
not uniformly 1: the early checks (autoquit without autostart, processes
on Windows, failed cpu autodetection, a processes value below -1, master
combined with processes) exit with code 1 — in particular
`processes > 0` with `--master` always fails early validation with
code 1 — while master+worker and a non-positive expected-worker count
exit via `sys.exit(-1)`. -/
theorem invalid_flag_combos_nonzero (o : Options) (os_is_windows : Bool)
    (cpu_count : Nat) :
    (0 < o.processes → o.master = true →
      early_config_validation o os_is_windows cpu_count = some 1) ∧
    (o.master = true → o.worker = true →
      master_worker_validation o = some (-1)) ∧
    (o.master = true → o.worker = false → o.expect_workers < 1 →
      master_worker_validation o = some (-1)) ∧
    (∀ c, early_config_validation o os_is_windows cpu_count = some c →
      c ≠ 0) ∧
    (∀ c, master_worker_validation o = some c → c ≠ 0) := by
  refine ⟨?_, ?_, ?_, ?_, ?_⟩
  · intro hp hm
    unfold early_config_validation
    split_ifs with h1 h2 h3 h4 h5 h6 <;> first
      | rfl
      | omega
  · intro hm hw
    simp [master_worker_validation, hm, hw]
  · intro hm hw he
    simp [master_worker_validation, hm, hw, he]
  · intro c hc
    unfold early_config_validation at hc
    split_ifs at hc <;> (injection hc with h; omega)
  · intro c hc
    unfold master_worker_validation at hc
    split_ifs at hc <;> (injection hc with h; omega)

/-- Witness for C9's amended theorem: `--processes 4 --master` fails
early validation with code 1, and master+worker exits -1. -/
theorem invalid_flag_combos_nonzero_witness :
    early_config_validation
      { headless := true, autostart := true, autoquit := -1,
        processes := 4, master := true, worker := false,
        expect_workers := 4, run_time := none } false 8 = some 1 ∧
    master_worker_validation
      { headless := true, autostart := true, autoquit := -1,
        processes := 0, master := true, worker := true,
        expect_workers := 4, run_time := none } = some (-1) :=
  ⟨(invalid_flag_combos_nonzero
      { headless := true, autostart := true, autoquit := -1,
        processes := 4, master := true, worker := false,
        expect_workers := 4, run_time := none } false 8).1 (by decide) rfl,
   (invalid_flag_combos_nonzero
      { headless := true, autostart := true, autoquit := -1,
        processes := 0, master := true, worker := true,
        expect_workers := 4, run_time := none } false 8).2.1 rfl rfl⟩

/-- One step of the duplicate-User-class check of
`merge_locustfiles_content` (src/locust/main.py lines 139-153).  A User
class is modelled as `(class_name, defining_file_path)` — the path is
what `inspect.getfile` returns.  If the name is already registered with
the same path the new definition is silently skipped (one locustfile
imported the other); with a different path the code writes an error and
calls `sys.exit(1)` (modelled as `Except.error 1`); otherwise the class
is registered. -/
def add_user_class (acc : List (String × String)) (c : String × String) :
    Except Nat (List (String × String)) :=
  match acc.find? (fun e => e.1 == c.1) with
  | some prev =>
    if prev.2 == c.2 then Except.ok acc else Except.error 1
  | none => Except.ok (acc ++ [c])

/-- The sequential merging loop: register each class in order, stopping
at the first `sys.exit`. -/
def merge_fold (acc : List (String × String)) :
    List (String × String) → Except Nat (List (String × String))
  | [] => Except.ok acc
  | c :: rest =>
    match add_user_class acc c with
    | Except.ok acc' => merge_fold acc' rest
    | Except.error e => Except.error e

/-- `merge_locustfiles_content` restricted to its User-class merging
(src/locust/main.py lines 126-153): the outer loop over locustfiles and
inner loop over each file's `user_classes` visit all `(name, path)`
pairs in order, accumulating `available_user_classes`. -/
def merge_locustfiles_content (files : List (List (String × String))) :
    Except Nat (List (String × String)) :=
  merge_fold [] files.flatten

theorem find?_append_some {α : Type} (l₁ l₂ : List α) (p : α → Bool)
    (a : α) (h : l₁.find? p = some a) : (l₁ ++ l₂).find? p = some a := by
  rw [List.find?_append, h]
  rfl

theorem find?_append_none {α : Type} (l₁ l₂ : List α) (p : α → Bool)
    (h : l₁.find? p = none) : (l₁ ++ l₂).find? p = l₂.find? p := by
  rw [List.find?_append, h]
  rfl

theorem add_user_class_preserves_find (acc acc' : List (String × String))
    (c : String × String) (h : add_user_class acc c = Except.ok acc')
    (k : String) (v : String × String)
    (hv : acc.find? (fun e => e.1 == k) = some v) :
    acc'.find? (fun e => e.1 == k) = some v := by
  unfold add_user_class at h
  cases hfind : acc.find? (fun e => e.1 == c.1) with
  | some prev =>
    rw [hfind] at h
    have h' : (if (prev.2 == c.2) = true then Except.ok acc
        else Except.error 1) = Except.ok acc' := h
    by_cases hpc : (prev.2 == c.2) = true
    · rw [if_pos hpc] at h'
      injection h' with h'
      subst h'
      exact hv
    · rw [if_neg hpc] at h'
      cases h'
  | none =>
    rw [hfind] at h
    have h' : Except.ok (ε := Nat) (acc ++ [c]) = Except.ok acc' := h
    injection h' with h'
    subst h'
    exact find?_append_some _ _ _ _ hv

theorem merge_fold_preserves_find (L : List (String × String)) :
    ∀ acc m, merge_fold acc L = Except.ok m →
    ∀ k v, acc.find? (fun e => e.1 == k) = some v →
      m.find? (fun e => e.1 == k) = some v := by
  induction L with
  | nil =>
    intro acc m h k v hv
    injection h with h
    subst h
    exact hv
  | cons c L ih =>
    intro acc m h k v hv
    unfold merge_fold at h
    cases hadd : add_user_class acc c with
    | error e =>
      rw [hadd] at h
      cases h
    | ok acc' =>
      rw [hadd] at h
      exact ih acc' m h k v (add_user_class_preserves_find acc acc' c hadd k v hv)

theorem merge_fold_find_of_mem (L : List (String × String)) :
    ∀ acc m, merge_fold acc L = Except.ok m →
    ∀ c ∈ L, m.find? (fun e => e.1 == c.1) = some (c.1, c.2) := by
  induction L with
  | nil =>
    intro acc m _ c hc
    cases hc
  | cons d L ih =>
    intro acc m h c hc
    unfold merge_fold at h
    cases hadd : add_user_class acc d with
    | error e =>
      rw [hadd] at h
      cases h
    | ok acc' =>
      rw [hadd] at h
      rcases List.mem_cons.mp hc with rfl | hmem
      · refine merge_fold_preserves_find L acc' m h c.1 (c.1, c.2) ?_
        unfold add_user_class at hadd
        cases hfind : acc.find? (fun e => e.1 == c.1) with
        | some prev =>
          rw [hfind] at hadd
          have hadd' : (if (prev.2 == c.2) = true then Except.ok acc
              else Except.error 1) = Except.ok acc' := hadd
          by_cases hpc : (prev.2 == c.2) = true
          · rw [if_pos hpc] at hadd'
            injection hadd' with hadd'
            subst hadd'
            have hp1 := List.find?_some hfind
            have e1 : prev.1 = c.1 := eq_of_beq hp1
            have e2 : prev.2 = c.2 := eq_of_beq hpc
            rw [hfind]
            congr 1
            calc prev = (prev.1, prev.2) := rfl
            _ = (c.1, c.2) := by rw [e1, e2]
          · rw [if_neg hpc] at hadd'
            cases hadd'
        | none =>
          rw [hfind] at hadd
          have hadd' : Except.ok (ε := Nat) (acc ++ [c]) = Except.ok acc' :=
            hadd
          injection hadd' with hadd'
          subst hadd'
          rw [find?_append_none _ _ _ hfind]
          simp [List.find?]
      · exact ih acc' m h c hmem

theorem add_user_class_self (m : List (String × String))
    (c : String × String)
    (h : m.find? (fun e => e.1 == c.1) = some (c.1, c.2)) :
    add_user_class m c = Except.ok m := by
  unfold add_user_class
  rw [h]
  simp

theorem merge_fold_idem (L : List (String × String)) :
    ∀ acc m, merge_fold acc L = Except.ok m →
      merge_fold m L = Except.ok m := by
  induction L with
  | nil =>
    intro acc m _
    rfl
  | cons c L ih =>
    intro acc m h
    have hmem := merge_fold_find_of_mem (c :: L) acc m h c (List.mem_cons_self _ _)
    unfold merge_fold at h
    cases hadd : add_user_class acc c with
    | error e =>
      rw [hadd] at h
      cases h
    | ok acc' =>
      rw [hadd] at h
      unfold merge_fold
      rw [add_user_class_self m c hmem]
      exact ih acc' m h

theorem merge_fold_append (L₁ L₂ : List (String × String)) :
    ∀ acc, merge_fold acc (L₁ ++ L₂) =
      match merge_fold acc L₁ with
      | Except.ok m => merge_fold m L₂
      | Except.error e => Except.error e := by
  induction L₁ with
  | nil =>
    intro acc
    rfl
  | cons c L₁ ih =>
    intro acc
    have e1 : merge_fold acc ((c :: L₁) ++ L₂) =
        match add_user_class acc c with
        | Except.ok acc' => merge_fold acc' (L₁ ++ L₂)
        | Except.error e => Except.error e := rfl
    have e2 : merge_fold acc (c :: L₁) =
        match add_user_class acc c with
        | Except.ok acc' => merge_fold acc' L₁
        | Except.error e => Except.error e := rfl
    rw [e1, e2]
    cases add_user_class acc c with
    | error e => rfl
    | ok acc' => exact ih acc'

/-- C10: merging locustfiles exits with status 1 when a User class name is
defined in two different source files; a duplicate definition coming from
the same source file (one locustfile imported the other) is silently
skipped, keeping the single definition; consequently merging the same
file's contents twice succeeds with the same result as merging it once. -/
theorem merge_duplicate_user_classes :
    (∀ n p q : String, p ≠ q →
      merge_locustfiles_content [[(n, p)], [(n, q)]] = Except.error 1) ∧
    (∀ n p : String,
      merge_locustfiles_content [[(n, p)], [(n, p)]] = Except.ok [(n, p)]) ∧
    (∀ F m, merge_locustfiles_content [F] = Except.ok m →
      merge_locustfiles_content [F, F] = Except.ok m) := by
  refine ⟨?_, ?_, ?_⟩
  · intro n p q hpq
    have hbeq : (p == q) = false := by
      simp [hpq]
    simp [merge_locustfiles_content, merge_fold, add_user_class,
      List.find?, hbeq]
  · intro n p
    simp [merge_locustfiles_content, merge_fold, add_user_class,
      List.find?]
  · intro F m h
    have h1 : merge_fold [] F = Except.ok m := by
      simpa [merge_locustfiles_content] using h
    have : merge_locustfiles_content [F, F] = merge_fold [] (F ++ F) := by
      simp [merge_locustfiles_content]
    rw [this, merge_fold_append F F []]
    rw [h1]
    exact merge_fold_idem F [] m h1

/-- Witness for C10: `UserA` defined in both `a.py` and `b.py` exits with
status 1; defined twice with source `a.py` it merges to the single
definition; merging `a.py`'s contents twice never fails. -/
theorem merge_duplicate_user_classes_witness :
    merge_locustfiles_content [[("UserA", "a.py")], [("UserA", "b.py")]] =
      Except.error 1 ∧
    merge_locustfiles_content [[("UserA", "a.py")], [("UserA", "a.py")]] =
      Except.ok [("UserA", "a.py")] ∧
    merge_locustfiles_content
      [[("UserA", "a.py"), ("UserB", "a.py")],
       [("UserA", "a.py"), ("UserB", "a.py")]] =
      Except.ok [("UserA", "a.py"), ("UserB", "a.py")] :=
  ⟨merge_duplicate_user_classes.1 "UserA" "a.py" "b.py" (by decide),
   merge_duplicate_user_classes.2.1 "UserA" "a.py",
   merge_duplicate_user_classes.2.2 [("UserA", "a.py"), ("UserB", "a.py")]
     [("UserA", "a.py"), ("UserB", "a.py")] rfl⟩

end Locust
